import Mathlib

/-!
Verification development for the `sanic-ext` runtime validation/coercion engine
(`sanic_ext/extras/validation/check.py`) and the multiprocess log consumer loop
(`sanic_ext/extensions/logging/logger.py`).

Python values are shallowly embedded as the inductive `Val`; Python type objects
(the contents of a `Hint.hint` slot) as `PyType`; raised exceptions as `Except Err`.
Exception classes are distinguished because the source catches `ValueError` and
`TypeError` selectively.  Mutual recursion between `check_data` and `Hint.validate`
goes through the schema (models referring to models), so the mutual block carries a
fuel parameter; exhausting fuel produces the artificial error `Err.outOfFuel`,
which no `except` clause of the source catches.
-/

/-- A single-quote character, written with an escape. -/
def apos : String := "\x27"

/-- The identity-distinct "missing value" sentinels of the source:
`dataclasses._HAS_DEFAULT_FACTORY` and `attrs.NOTHING`. -/
inductive Sentinel where
  | hasDefaultFactory : Sentinel
  | nothing : Sentinel
deriving DecidableEq, Repr

/-- Embedded Python runtime values: the scalars, lists, dicts (as association
lists), constructed model instances (model name plus keyword arguments), and the
missing-value sentinels. -/
inductive Val where
  | none : Val
  | bool : Bool → Val
  | int : Int → Val
  | str : String → Val
  | list : List Val → Val
  | dict : List (String × Val) → Val
  | inst : String → List (String × Val) → Val
  | sentinel : Sentinel → Val

/-- `value is None` (identity test against the `None` singleton). -/
def Val.isNone : Val → Bool
  | .none => true
  | _ => false

/-- `isinstance(value, list)`. -/
def Val.isList : Val → Bool
  | .list _ => true
  | _ => false

mutual
/-- Python `==` between embedded values.  `bool` is a subclass of `int`, so
`True == 1` and `False == 0`; sentinels compare by identity; lists, dicts and
(dataclass) instances compare componentwise. -/
def pyEq : Val → Val → Bool
  | .none, .none => true
  | .bool b, .bool c => b == c
  | .bool b, .int n => (if b then (1 : Int) else 0) == n
  | .int n, .bool b => n == (if b then (1 : Int) else 0)
  | .int m, .int n => m == n
  | .str s, .str t => s == t
  | .list xs, .list ys => pyEqList xs ys
  | .dict xs, .dict ys => pyEqFields xs ys
  | .inst n xs, .inst m ys => n == m && pyEqFields xs ys
  | .sentinel a, .sentinel b => a == b
  | _, _ => false

def pyEqList : List Val → List Val → Bool
  | [], [] => true
  | x :: xs, y :: ys => pyEq x y && pyEqList xs ys
  | _, _ => false

def pyEqFields : List (String × Val) → List (String × Val) → Bool
  | [], [] => true
  | (k, x) :: xs, (l, y) :: ys => k == l && pyEq x y && pyEqFields xs ys
  | _, _ => false
end

mutual
/-- Python `repr()` of an embedded value (used inside container displays). -/
def reprVal : Val → String
  | .none => "None"
  | .bool true => "True"
  | .bool false => "False"
  | .int n => toString n
  | .str s => apos ++ s ++ apos
  | .list xs => "[" ++ reprValList xs ++ "]"
  | .dict xs => "\x7b" ++ reprValFields xs ++ "\x7d"
  | .inst n xs => n ++ "(" ++ reprValFields xs ++ ")"
  | .sentinel .hasDefaultFactory => "<dataclasses._HAS_DEFAULT_FACTORY_TYPE object>"
  | .sentinel .nothing => "NOTHING"

def reprValList : List Val → String
  | [] => ""
  | [x] => reprVal x
  | x :: xs => reprVal x ++ ", " ++ reprValList xs

def reprValFields : List (String × Val) → String
  | [] => ""
  | [(k, x)] => apos ++ k ++ apos ++ ": " ++ reprVal x
  | (k, x) :: xs => apos ++ k ++ apos ++ ": " ++ reprVal x ++ ", " ++ reprValFields xs
end

/-- Python `str()` of an embedded value: strings print raw, everything else as
its `repr`. -/
def strVal : Val → String
  | .str s => s
  | v => reprVal v

/-- Embedded Python type objects, as they appear in a `Hint.hint` slot: the plain
primitive classes, `NoneType`, `typing.Any`, bare or parametrized `list`/`dict`,
`typing.Union` (covering the `Optional` idiom and `types.UnionType`),
`typing.Literal`, a user model class (by name), or a raw literal value (the
`hint` of a `literal=True` Hint holds the value itself, not a type). -/
inductive PyType where
  | tInt : PyType
  | tStr : PyType
  | tBool : PyType
  | tNone : PyType
  | tAny : PyType
  | tList : Option PyType → PyType
  | tDict : Option (PyType × PyType) → PyType
  | tUnion : List PyType → PyType
  | tLiteral : List Val → PyType
  | tModel : String → PyType
  | lit : Val → PyType

mutual
/-- Python `str()` of a type object (used in error messages). -/
def strHint : PyType → String
  | .tInt => "<class " ++ apos ++ "int" ++ apos ++ ">"
  | .tStr => "<class " ++ apos ++ "str" ++ apos ++ ">"
  | .tBool => "<class " ++ apos ++ "bool" ++ apos ++ ">"
  | .tNone => "<class " ++ apos ++ "NoneType" ++ apos ++ ">"
  | .tAny => "typing.Any"
  | .tList Option.none => "<class " ++ apos ++ "list" ++ apos ++ ">"
  | .tList (some a) => "typing.List[" ++ strHint a ++ "]"
  | .tDict Option.none => "<class " ++ apos ++ "dict" ++ apos ++ ">"
  | .tDict (some (k, v)) => "typing.Dict[" ++ strHint k ++ ", " ++ strHint v ++ "]"
  | .tUnion args => "typing.Union[" ++ strHintList args ++ "]"
  | .tLiteral vs => "typing.Literal[" ++ reprValList vs ++ "]"
  | .tModel n => "<class " ++ apos ++ n ++ apos ++ ">"
  | .lit v => strVal v

/-- `str()` of each member of a list of type objects, comma separated. -/
def strHintList : List PyType → String
  | [] => ""
  | [t] => strHint t
  | t :: ts => strHint t ++ ", " ++ strHintList ts
end

/-- The `__name__` attribute of a type object; `Option.none` models the
`AttributeError` raised for subscripted generics, which have no `__name__`. -/
def pyTypeName : PyType → Option String
  | .tInt => some "int"
  | .tStr => some "str"
  | .tBool => some "bool"
  | .tNone => some "NoneType"
  | .tAny => some "Any"
  | .tList Option.none => some "list"
  | .tDict Option.none => some "dict"
  | .tModel n => some n
  | _ => Option.none

/-- The compound-type discriminator stored in `Hint.origin` (`get_origin` of the
hint).  `typing.Union` and `types.UnionType` are merged: the source tests
`origin in (Union, Literal, UnionType)` and never distinguishes the two union
forms. -/
inductive Origin where
  | union : Origin
  | literalT : Origin
  | listT : Origin
  | dictT : Origin
deriving DecidableEq, Repr

/-- The exception classes the source raises or catches, each carrying its
message; `outOfFuel` is the embedding artifact for exhausted recursion fuel and
corresponds to no Python exception. -/
inductive Err where
  | valueError : String → Err
  | typeError : String → Err
  | attributeError : String → Err
  | keyError : String → Err
  | outOfFuel : Err
deriving DecidableEq, Repr

/-- The `Hint` NamedTuple of the source: raw declared type, the `model` /
`literal` / `typed` / `nullable` flags, the compound origin, the ordered child
hints, and the `allow_missing` flag. -/
inductive Hint where
  | mk : PyType → Bool → Bool → Bool → Bool → Option Origin → List Hint → Bool → Hint

/-- The raw declared type of a `Hint`. -/
def Hint.hint : Hint → PyType
  | .mk t _ _ _ _ _ _ _ => t

/-- The `model` flag of a `Hint`. -/
def Hint.model : Hint → Bool
  | .mk _ b _ _ _ _ _ _ => b

/-- The `literal` flag of a `Hint`. -/
def Hint.literal : Hint → Bool
  | .mk _ _ b _ _ _ _ _ => b

/-- The `typed` flag of a `Hint`. -/
def Hint.typed : Hint → Bool
  | .mk _ _ _ b _ _ _ _ => b

/-- The `nullable` flag of a `Hint`. -/
def Hint.nullable : Hint → Bool
  | .mk _ _ _ _ b _ _ _ => b

/-- The `origin` slot of a `Hint`. -/
def Hint.origin : Hint → Option Origin
  | .mk _ _ _ _ _ o _ _ => o

/-- The ordered child hints (`allowed`) of a `Hint`. -/
def Hint.allowed : Hint → List Hint
  | .mk _ _ _ _ _ _ a _ => a

/-- The `allow_missing` flag of a `Hint`. -/
def Hint.allow_missing : Hint → Bool
  | .mk _ _ _ _ _ _ _ b => b

/-- Is this type object the bare `list` class (`coerce_type is not list` test)? -/
def PyType.isBareList : PyType → Bool
  | .tList Option.none => true
  | _ => false

/-- Is this type object `type(None)`? -/
def PyType.isTNone : PyType → Bool
  | .tNone => true
  | _ => false

/-- Modelled from the spec: `is_generic` lives in `sanic_ext/utils/typing.py`,
which is not under `src/`.  Per the spec a hint is generic exactly when it
carries compound structure: a union (including the optional idiom), a literal
value set, or a parametrized list/dict. -/
def is_generic : PyType → Bool
  | .tUnion _ => true
  | .tLiteral _ => true
  | .tList (some _) => true
  | .tDict (some _) => true
  | _ => false

/-- Modelled from the spec: `is_optional` lives in `sanic_ext/utils/typing.py`,
which is not under `src/`.  Per the spec the optional idiom is "a union with a
null alternative". -/
def is_optional : PyType → Bool
  | .tUnion args => args.any PyType.isTNone
  | _ => false

/-- `typing.get_args`: the arguments of a subscripted generic.  For a `Literal`
the arguments are the literal values themselves (raw value objects, embedded as
`PyType.lit`), not types. -/
def get_args : PyType → List PyType
  | .tUnion args => args
  | .tLiteral vs => vs.map PyType.lit
  | .tList (some a) => [a]
  | .tDict (some (k, v)) => [k, v]
  | _ => []

/-- The `coerce_type` property: the raw hint, except that an optional hint is
unwrapped to its first type argument (`get_args(self.hint)[0]`). -/
def Hint.coerce_type (h : Hint) : PyType :=
  if is_optional h.hint then ((get_args h.hint).headD h.hint) else h.hint

/-- `isinstance(value, t)`.  `bool` is a subclass of `int`.  Subscripted
generics, raw values and `typing.Any` cannot be used with `isinstance` and raise
`TypeError`, which the embedding surfaces in the error component. -/
def isinstance (v : Val) : PyType → Except Err Bool
  | .tInt => .ok (match v with | .int _ => true | .bool _ => true | _ => false)
  | .tStr => .ok (match v with | .str _ => true | _ => false)
  | .tBool => .ok (match v with | .bool _ => true | _ => false)
  | .tNone => .ok v.isNone
  | .tAny => .error (.typeError "typing.Any cannot be used with isinstance()")
  | .tList Option.none => .ok v.isList
  | .tList (some _) =>
      .error (.typeError "Subscripted generics cannot be used with class and instance checks")
  | .tDict Option.none => .ok (match v with | .dict _ => true | _ => false)
  | .tDict (some _) =>
      .error (.typeError "Subscripted generics cannot be used with class and instance checks")
  | .tUnion _ =>
      .error (.typeError "Subscripted generics cannot be used with class and instance checks")
  | .tLiteral _ =>
      .error (.typeError "Subscripted generics cannot be used with class and instance checks")
  | .tModel n => .ok (match v with | .inst m _ => m == n | _ => false)
  | .lit _ => .error (.typeError "isinstance() arg 2 must be a type")

/-- The list comprehension `[arg for arg in args if not isinstance(None, arg)]`
of `Hint.coerce`: drops `NoneType` arguments, and raises (left to right) as soon
as `isinstance(None, arg)` itself raises, e.g. for `Literal` value arguments. -/
def filterNonNone : List PyType → Except Err (List PyType)
  | [] => .ok []
  | a :: rest =>
    match isinstance Val.none a with
    | .error e => .error e
    | .ok b =>
      match filterNonNone rest with
      | .error e => .error e
      | .ok others => .ok (if b then others else a :: others)

/-- The digits of a decimal numeral, or `Option.none` when empty or non-digit. -/
def digitsToNat : List Char → Option Nat
  | [] => Option.none
  | cs =>
    if cs.all Char.isDigit then
      some (cs.foldl (fun acc c => acc * 10 + (c.toNat - 48)) 0)
    else Option.none

/-- `int(s)` on a string: surrounding whitespace is stripped, an optional sign
is allowed, then decimal digits. -/
def pyParseInt (s : String) : Option Int :=
  match (s.trim).toList with
  | '+' :: rest => (digitsToNat rest).map Int.ofNat
  | '-' :: rest => (digitsToNat rest).map (fun n => -(n : Int))
  | l => (digitsToNat l).map Int.ofNat

/-- Python truthiness (`bool(v)`). -/
def truthy : Val → Bool
  | .none => false
  | .bool b => b
  | .int n => n != 0
  | .str s => s != ""
  | .list xs => !xs.isEmpty
  | .dict xs => !xs.isEmpty
  | .inst _ _ => true
  | .sentinel _ => true

/-- Calling a type object as a conversion function, `coerce_type(value)`:
`int(...)` parses strings and converts bools, `str(...)` always succeeds,
`list(...)` iterates its argument.  Model classes called with one positional
argument are modeled as a `TypeError` (the constructors the engine meets take
keyword field arguments); calling a non-type raises `TypeError`. -/
def callType : PyType → Val → Except Err Val
  | .tInt, v =>
    match v with
    | .int n => .ok (.int n)
    | .bool b => .ok (.int (if b then 1 else 0))
    | .str s =>
      match pyParseInt s with
      | some n => .ok (.int n)
      | Option.none =>
        .error (.valueError
          ("invalid literal for int() with base 10: " ++ reprVal (.str s)))
    | w =>
      .error (.typeError
        ("int() argument must be a string, a bytes-like object or a real number, not "
          ++ apos ++ strVal w ++ apos))
  | .tStr, v => .ok (.str (strVal v))
  | .tBool, v => .ok (.bool (truthy v))
  | .tNone, _ => .error (.typeError "NoneType takes no arguments")
  | .tAny, _ => .error (.typeError "typing.Any cannot be instantiated")
  | .tList Option.none, v =>
    match v with
    | .str s => .ok (.list (s.toList.map (fun c => .str (String.mk [c]))))
    | .list xs => .ok (.list xs)
    | .dict xs => .ok (.list (xs.map (fun kv => .str kv.fst)))
    | w => .error (.typeError (apos ++ strVal w ++ apos ++ " object is not iterable"))
  | .tDict Option.none, v =>
    match v with
    | .dict xs => .ok (.dict xs)
    | w => .error (.typeError (apos ++ strVal w ++ apos ++ " object is not iterable"))
  | .tModel _, _ => .error (.typeError "model constructor does not accept a positional value")
  | _, _ => .error (.typeError "cannot instantiate a subscripted generic or value")

/-- Python `str.lower()` restricted to ASCII (every recognized token and
sentinel string is ASCII). -/
def lowerChar (c : Char) : Char :=
  if 65 <= c.toNat && c.toNat <= 90 then Char.ofNat (c.toNat + 32) else c

/-- `.lower()` over a whole string. -/
def pyLower (s : String) : String := String.mk (s.data.map lowerChar)

/-- Modelled from the spec: `str_to_bool` is imported from `sanic.utils`
(an external collaborator, outside this repository).  Per the spec, "boolean
targets use a recognized-token coercion ... string forms such as
true/false/1/0/yes/no map deterministically; anything unrecognized fails"; the
embedding uses sanic's recognized truthy/falsy token sets.  Applied to a
non-string the helper calls `.lower()` and raises `AttributeError`. -/
def truthyTokens : List String :=
  ["y", "yes", "yep", "yup", "t", "true", "on", "enable", "enabled", "1"]

/-- The recognized falsy string tokens of the boolean coercion. -/
def falsyTokens : List String :=
  ["n", "no", "f", "false", "off", "disable", "disabled", "0"]

/-- The token-based boolean coercion (see `truthyTokens`). -/
def str_to_bool : Val → Except Err Val
  | .str s =>
    let t := pyLower s
    if truthyTokens.contains t then .ok (.bool true)
    else if falsyTokens.contains t then .ok (.bool false)
    else .error (.valueError ("Invalid truth value " ++ t))
  | v =>
    .error (.attributeError
      (apos ++ strVal v ++ apos ++ " object has no attribute " ++ apos ++ "lower" ++ apos))

/-- `str_to_none`: `None` and the case-insensitive strings "null", "none" and ""
coerce to `None`; any other string raises `ValueError`; a non-string, non-`None`
value has no `.lower()` and raises `AttributeError`. -/
def str_to_none : Val → Except Err Val
  | .none => .ok .none
  | .str s =>
    if ["null", "none", ""].contains (pyLower s) then .ok .none
    else .error (.valueError ("Could not convert " ++ s ++ " to None"))
  | v =>
    .error (.attributeError
      (apos ++ strVal v ++ apos ++ " object has no attribute " ++ apos ++ "lower" ++ apos))

/-- `Hint.get_coercer`: `bool` targets are swapped for the token-based
`str_to_bool`; every other target type is called directly. -/
def Hint.get_coercer : PyType → Val → Except Err Val
  | .tBool => str_to_bool
  | t => callType t

/-- Element-wise application of a coercer over a list (the comprehension inside
`Hint._do_coerce`), stopping at the first raise. -/
def coerceEach (coercer : Val → Except Err Val) : List Val → Except Err (List Val)
  | [] => .ok []
  | x :: xs =>
    match coercer x with
    | .error e => .error e
    | .ok y =>
      match coerceEach coercer xs with
      | .error e => .error e
      | .ok ys => .ok (y :: ys)

/-- `Hint._do_coerce`: apply the coercer (element-wise over a list value);
`ValueError`/`TypeError` is re-raised only when `raise_exception` is set and is
otherwise swallowed, returning the value unchanged.  Any other exception (e.g.
`AttributeError` from `.lower()`) always propagates. -/
def Hint._do_coerce (value : Val) (coercer : Val → Except Err Val)
    (raise_exception : Bool) : Except Err Val :=
  let attempt : Except Err Val :=
    match value with
    | .list xs =>
      match coerceEach coercer xs with
      | .ok ys => .ok (.list ys)
      | .error e => .error e
    | v => coercer v
  match attempt with
  | .ok v => .ok v
  | .error (.valueError m) => if raise_exception then .error (.valueError m) else .ok value
  | .error (.typeError m) => if raise_exception then .error (.typeError m) else .ok value
  | .error e => .error e

/-- `all(val is None for val in value)` over a list value. -/
def allNone : Val → Bool
  | .list xs => xs.all Val.isNone
  | _ => false

/-- The `for coerce_type in coerce_types` loop of `Hint.coerce`: a value already
an instance of the target is returned unchanged; otherwise the coercer is tried,
its `ValueError`/`TypeError` swallowed to move to the next target; when every
target fails the value is returned unchanged (the trailing `return value`). -/
def Hint.coerceLoop (value : Val) : List PyType → Except Err Val
  | [] => .ok value
  | ct :: rest =>
    match isinstance value ct with
    | .error e => .error e
    | .ok true => .ok value
    | .ok false =>
      match Hint._do_coerce value (Hint.get_coercer ct) true with
      | .ok v2 => .ok v2
      | .error (.valueError _) => Hint.coerceLoop value rest
      | .error (.typeError _) => Hint.coerceLoop value rest
      | .error e => .error e

/-- `Hint.coerce`: compute the candidate target types (unwrapping a generic
`coerce_type` and dropping `NoneType` arguments, with the early `return None`
for a null value of a nullable generic), then for a nullable hint first try the
null-sentinel coercion, and finally run the target loop. -/
def Hint.coerce (h : Hint) (value : Val) (allow_multiple : Bool) : Except Err Val :=
  let ct := h.coerce_type
  let cts : Except Err (Option (List PyType)) :=
    if is_generic ct then
      let args := get_args ct
      if args.any PyType.isTNone && value.isNone then .ok Option.none
      else
        match filterNonNone args with
        | .ok l => .ok (some l)
        | .error e => .error e
    else .ok (some [ct])
  match cts with
  | .error e => .error e
  | .ok Option.none => .ok Val.none
  | .ok (some coerceTypes) =>
    if h.nullable then
      match Hint._do_coerce value str_to_none false with
      | .error e => .error e
      | .ok v1 =>
        if v1.isNone || (v1.isList && allow_multiple && allNone v1) then .ok v1
        else Hint.coerceLoop v1 coerceTypes
    else Hint.coerceLoop value coerceTypes

/-- `_check_types`: literal hints pass `Any` and otherwise compare by `==`;
non-literal hints use `isinstance` (whose own `TypeError` for non-type hints
propagates). -/
def _check_types (value : Val) (literal : Bool) (expected : PyType) : Except Err Unit :=
  if literal then
    match expected with
    | .tAny => .ok ()
    | .lit w =>
      if pyEq value w then .ok ()
      else .error (.valueError
        ("Value " ++ apos ++ strVal value ++ apos ++ " must be " ++ strHint expected))
    | _ =>
      .error (.valueError
        ("Value " ++ apos ++ strVal value ++ apos ++ " must be " ++ strHint expected))
  else
    match isinstance value expected with
    | .error e => .error e
    | .ok true => .ok ()
    | .ok false =>
      .error (.valueError
        ("Value " ++ apos ++ strVal value ++ apos ++ " is not of type " ++ strHint expected))

/-- One parameter of a recorded constructor signature: its name and optional
default value (after `apply_defaults`, an absent field with a default factory
carries the `_HAS_DEFAULT_FACTORY` sentinel as its default). -/
structure Param where
  name : String
  default : Option Val

/-- The schema entry of one model: the recorded constructor signature and the
mapping from field name to compiled `Hint`. -/
structure SchemaEntry where
  sig : List Param
  hints : List (String × Hint)

/-- The schema cache: model name to schema entry. -/
abbrev Schema := List (String × SchemaEntry)

/-- The first parameter `Signature.bind` finds unfilled: no incoming datum and
no declared default. -/
def findMissingParam (data : List (String × Val)) : List Param → Option String
  | [] => Option.none
  | p :: rest =>
    match data.lookup p.name, p.default with
    | Option.none, Option.none => some p.name
    | _, _ => findMissingParam data rest

/-- The first keyword in the data that matches no parameter. -/
def findUnexpected (names : List String) : List (String × Val) → Option String
  | [] => Option.none
  | (k, _) :: rest => if names.contains k then findUnexpected names rest else some k

/-- The bound value of a parameter after `apply_defaults`: the incoming datum,
or the declared default. -/
def boundValue (data : List (String × Val)) (p : Param) : Val :=
  match data.lookup p.name with
  | some v => v
  | Option.none => p.default.getD Val.none

/-- `sig.bind(**data)` followed by `bound.apply_defaults()` and the
`params = dict(zip(sig.parameters, bound.args)); params.update(bound.kwargs)`
reconstruction: a parameter without datum or default raises `TypeError`, an
unknown keyword raises `TypeError`, and otherwise every parameter is bound in
declaration order. -/
def bindSig (sig : List Param) (data : List (String × Val)) :
    Except Err (List (String × Val)) :=
  match findMissingParam data sig with
  | some n => .error (.typeError ("missing a required argument: " ++ apos ++ n ++ apos))
  | Option.none =>
    match findUnexpected (sig.map Param.name) data with
    | some k =>
      .error (.typeError ("got an unexpected keyword argument " ++ apos ++ k ++ apos))
    | Option.none => .ok (sig.map (fun p => (p.name, boundValue data p)))

/-- The `MISSING` sentinel tuple: `(_HAS_DEFAULT_FACTORY,)`, extended with
`attrs.NOTHING` when the optional `attrs` dependency is installed. -/
def MISSING (attrsInstalled : Bool) : List Val :=
  if attrsInstalled then [.sentinel .hasDefaultFactory, .sentinel .nothing]
  else [.sentinel .hasDefaultFactory]

/-- Python `value in MISSING` (membership by `==`). -/
def inMISSING (attrsInstalled : Bool) (v : Val) : Bool :=
  (MISSING attrsInstalled).any (fun m => pyEq v m)

/-- `any(val is not None for val in value)` over a list value. -/
def anyNotNone : Val → Bool
  | .list xs => xs.any (fun v => !v.isNone)
  | _ => false

/-- The single-element-list unwrap of `Hint.validate` in `allow_multiple` mode:
`value = value[0]` when the value is a list of length one. -/
def unwrapSingle : Val → Val
  | .list [x] => x
  | v => v

/-- The message `f"Value '{value}' must be a {hint}"` of the list/dict checks. -/
def mustBeA (value : Val) (hint : PyType) : String :=
  "Value " ++ apos ++ strVal value ++ apos ++ " must be a " ++ strHint hint

/-- The message `f"Value '{value}' must be one of {options}"`. -/
def mustBeOneOf (value : Val) (allowed : List Hint) : String :=
  "Value " ++ apos ++ strVal value ++ apos ++ " must be one of "
    ++ strHintList (allowed.map Hint.hint)

mutual

/-- `check_data`: reject non-dict data, fetch the model's schema entry, bind the
data against the recorded signature, hydrate every bound parameter through its
hint's `validate` (swallowing a `ValueError` for an `allow_missing` hint whose
bound value is a missing sentinel), re-raise any `ValueError` as `TypeError`,
and construct the model instance from the collected values. -/
def check_data (fuel : Nat) (model : String) (data : Val) (schema : Schema)
    (allow_multiple allow_coerce attrsInstalled : Bool) : Except Err Val :=
  match fuel with
  | 0 => .error .outOfFuel
  | fuel + 1 =>
    match data with
    | .dict d =>
      match schema.lookup model with
      | Option.none => .error (.keyError (apos ++ model ++ apos))
      | some entry =>
        match bindSig entry.sig d with
        | .error e => .error e
        | .ok params =>
          match hydrate fuel entry.hints params schema allow_multiple allow_coerce
              attrsInstalled with
          | .ok hv => .ok (.inst model hv)
          | .error (.valueError m) => .error (.typeError m)
          | .error e => .error e
    | _ => .error (.typeError ("Value " ++ apos ++ strVal data ++ apos ++ " is not a dict"))
termination_by (fuel, 0)

/-- The `for key, value in params.items()` hydration loop of `check_data`: each
bound parameter is validated by its hint (`hints.get(key, Any)` falling back to
raw `typing.Any`, whose missing `validate` attribute raises `AttributeError`);
a `ValueError` is swallowed, omitting the parameter, exactly when the hint
allows missing values and the bound value is a missing sentinel. -/
def hydrate (fuel : Nat) (hints : List (String × Hint)) (params : List (String × Val))
    (schema : Schema) (allow_multiple allow_coerce attrsInstalled : Bool) :
    Except Err (List (String × Val)) :=
  match params with
  | [] => .ok []
  | (key, value) :: rest =>
    match hints.lookup key with
    | Option.none =>
      .error (.attributeError
        ("type object " ++ apos ++ "Any" ++ apos ++ " has no attribute "
          ++ apos ++ "validate" ++ apos))
    | some hint =>
      match Hint.validate fuel hint value schema allow_multiple allow_coerce
          attrsInstalled with
      | .ok v2 =>
        match hydrate fuel hints rest schema allow_multiple allow_coerce attrsInstalled with
        | .ok hv => .ok ((key, v2) :: hv)
        | .error e => .error e
      | .error (.valueError m) =>
        if hint.allow_missing && inMISSING attrsInstalled value then
          hydrate fuel hints rest schema allow_multiple allow_coerce attrsInstalled
        else .error (.valueError m)
      | .error e => .error e
termination_by (fuel, sizeOf params)

/-- `Hint.validate`: nested models recurse into `check_data`; untyped hints
unwrap single-element lists in `allow_multiple` mode, then type-check, coercing
and re-checking on a `ValueError` when `allow_coerce` is set; typed (compound)
hints first coerce (when permitted), resolve nullability, and dispatch on the
origin to the union/literal inclusion check or the list/dict element checks. -/
def Hint.validate (fuel : Nat) (h : Hint) (value : Val) (schema : Schema)
    (allow_multiple allow_coerce attrsInstalled : Bool) : Except Err Val :=
  match fuel with
  | 0 => .error .outOfFuel
  | fuel + 1 =>
    if h.typed = false then
      if h.model then
        match pyTypeName h.hint with
        | some n => check_data fuel n value schema allow_multiple allow_coerce attrsInstalled
        | Option.none =>
          .error (.attributeError ("type object has no attribute " ++ apos ++ "__name__" ++ apos))
      else
        let value :=
          if allow_multiple && !h.coerce_type.isBareList then unwrapSingle value
          else value
        match _check_types value h.literal h.hint with
        | .ok _ => .ok value
        | .error (.valueError e) =>
          if allow_coerce then
            match h.coerce value false with
            | .ok v2 =>
              match _check_types v2 h.literal h.hint with
              | .ok _ => .ok v2
              | .error e2 => .error e2
            | .error e2 => .error e2
          else .error (.valueError e)
        | .error e => .error e
    else
      match (if allow_coerce then h.coerce value allow_multiple else .ok value) with
      | .error e => .error e
      | .ok v1 =>
        match _check_nullability fuel v1 h.nullable h.allowed schema allow_multiple
            allow_coerce attrsInstalled with
        | .error e => .error e
        | .ok v2 =>
          if h.nullable = false then
            match h.origin with
            | some .union =>
              _check_inclusion fuel v2 h.allowed schema allow_multiple allow_coerce
                attrsInstalled
            | some .literalT =>
              _check_inclusion fuel v2 h.allowed schema allow_multiple allow_coerce
                attrsInstalled
            | some .listT =>
              _check_list fuel v2 h.allowed h.hint schema allow_multiple allow_coerce
                attrsInstalled
            | some .dictT =>
              _check_dict fuel v2 h.allowed h.hint schema allow_multiple allow_coerce
                attrsInstalled
            | Option.none => .ok v2
          else .ok v2
termination_by (fuel, 0)

/-- `_check_nullability`: a `None` for a non-nullable hint raises; a present
value of a nullable hint (when not in multi-value mode, or a list with a
non-null element) is tried against each allowed alternative in order. -/
def _check_nullability (fuel : Nat) (value : Val) (nullable : Bool) (allowed : List Hint)
    (schema : Schema) (allow_multiple allow_coerce attrsInstalled : Bool) : Except Err Val :=
  match fuel with
  | 0 => .error .outOfFuel
  | fuel + 1 =>
    if !nullable && value.isNone then .error (.valueError "Value cannot be None")
    else if nullable && !value.isNone
        && (allow_multiple == false || (value.isList && anyNotNone value)) then
      nullLoop fuel allowed value Option.none allowed schema allow_multiple allow_coerce
        attrsInstalled
    else .ok value
termination_by (fuel, 0)

/-- The alternative loop of `_check_nullability`: first success breaks; only
`ValueError` is caught (and remembered); when every alternative failed, a single
alternative's own error is re-raised verbatim, while two or more alternatives
raise a fresh `ValueError` listing all of them followed by ", or None". -/
def nullLoop (fuel : Nat) (allowedAll : List Hint) (value : Val) (exc : Option Err)
    (remaining : List Hint) (schema : Schema)
    (allow_multiple allow_coerce attrsInstalled : Bool) : Except Err Val :=
  match remaining with
  | [] =>
    match exc with
    | Option.none => .ok value
    | some e =>
      if allowedAll.length == 1 then .error e
      else .error (.valueError (mustBeOneOf value allowedAll ++ ", or None"))
  | h :: rest =>
    match Hint.validate fuel h value schema allow_multiple allow_coerce attrsInstalled with
    | .ok v => .ok v
    | .error (.valueError m) =>
      nullLoop fuel allowedAll value (some (.valueError m)) rest schema allow_multiple
        allow_coerce attrsInstalled
    | .error e => .error e
termination_by (fuel, sizeOf remaining)

/-- `_check_inclusion`: try each allowed alternative in declaration order,
returning the first validated result; `ValueError` and `TypeError` move to the
next alternative; exhaustion raises a `ValueError` naming every alternative. -/
def _check_inclusion (fuel : Nat) (value : Val) (allowed : List Hint) (schema : Schema)
    (allow_multiple allow_coerce attrsInstalled : Bool) : Except Err Val :=
  match fuel with
  | 0 => .error .outOfFuel
  | fuel + 1 =>
    incLoop fuel allowed value allowed schema allow_multiple allow_coerce attrsInstalled
termination_by (fuel, 0)

/-- The alternative loop of `_check_inclusion`. -/
def incLoop (fuel : Nat) (allowedAll : List Hint) (value : Val) (remaining : List Hint)
    (schema : Schema) (allow_multiple allow_coerce attrsInstalled : Bool) : Except Err Val :=
  match remaining with
  | [] => .error (.valueError (mustBeOneOf value allowedAll))
  | h :: rest =>
    match Hint.validate fuel h value schema allow_multiple allow_coerce attrsInstalled with
    | .ok v => .ok v
    | .error (.valueError _) =>
      incLoop fuel allowedAll value rest schema allow_multiple allow_coerce attrsInstalled
    | .error (.typeError _) =>
      incLoop fuel allowedAll value rest schema allow_multiple allow_coerce attrsInstalled
    | .error e => .error e
termination_by (fuel, sizeOf remaining)

/-- `_check_list`: a non-list raises naming the declared list type; otherwise
every element goes through the inclusion check, and any element's
`ValueError`/`TypeError` fails the whole field naming the declared list type. -/
def _check_list (fuel : Nat) (value : Val) (allowed : List Hint) (hint : PyType)
    (schema : Schema) (allow_multiple allow_coerce attrsInstalled : Bool) : Except Err Val :=
  match fuel with
  | 0 => .error .outOfFuel
  | fuel + 1 =>
    match value with
    | .list xs =>
      match elemsLoop fuel allowed xs schema allow_multiple allow_coerce attrsInstalled with
      | .ok ys => .ok (.list ys)
      | .error (.valueError _) => .error (.valueError (mustBeA (.list xs) hint))
      | .error (.typeError _) => .error (.valueError (mustBeA (.list xs) hint))
      | .error e => .error e
    | _ => .error (.valueError (mustBeA value hint))
termination_by (fuel, 0)

/-- The element comprehension of `_check_list`. -/
def elemsLoop (fuel : Nat) (allowed : List Hint) (xs : List Val) (schema : Schema)
    (allow_multiple allow_coerce attrsInstalled : Bool) : Except Err (List Val) :=
  match xs with
  | [] => .ok []
  | x :: rest =>
    match _check_inclusion fuel x allowed schema allow_multiple allow_coerce attrsInstalled with
    | .error e => .error e
    | .ok y =>
      match elemsLoop fuel allowed rest schema allow_multiple allow_coerce attrsInstalled with
      | .error e => .error e
      | .ok ys => .ok (y :: ys)
termination_by (fuel, sizeOf xs)

/-- `_check_dict`: a non-dict raises naming the declared dict type; otherwise
every entry value goes through the inclusion check preserving keys, with the
same all-or-nothing failure policy as `_check_list`. -/
def _check_dict (fuel : Nat) (value : Val) (allowed : List Hint) (hint : PyType)
    (schema : Schema) (allow_multiple allow_coerce attrsInstalled : Bool) : Except Err Val :=
  match fuel with
  | 0 => .error .outOfFuel
  | fuel + 1 =>
    match value with
    | .dict xs =>
      match entriesLoop fuel allowed xs schema allow_multiple allow_coerce attrsInstalled with
      | .ok ys => .ok (.dict ys)
      | .error (.valueError _) => .error (.valueError (mustBeA (.dict xs) hint))
      | .error (.typeError _) => .error (.valueError (mustBeA (.dict xs) hint))
      | .error e => .error e
    | _ => .error (.valueError (mustBeA value hint))
termination_by (fuel, 0)

/-- The entry comprehension of `_check_dict`. -/
def entriesLoop (fuel : Nat) (allowed : List Hint) (xs : List (String × Val))
    (schema : Schema) (allow_multiple allow_coerce attrsInstalled : Bool) :
    Except Err (List (String × Val)) :=
  match xs with
  | [] => .ok []
  | (k, x) :: rest =>
    match _check_inclusion fuel x allowed schema allow_multiple allow_coerce attrsInstalled with
    | .error e => .error e
    | .ok y =>
      match entriesLoop fuel allowed rest schema allow_multiple allow_coerce attrsInstalled with
      | .error e => .error e
      | .ok ys => .ok ((k, y) :: ys)
termination_by (fuel, sizeOf xs)

end

/-- A log record: the emitting logger's name and its message. -/
structure LogRecord where
  name : String
  message : String
deriving DecidableEq, Repr

/-- The logger names the consumer routes to (`root_logger`, `access_logger`,
`error_logger` of sanic). -/
def knownLoggers : List String := ["sanic.root", "sanic.access", "sanic.error"]

/-- The bounded capacity of the shared logger queue (`Queue(maxsize=4096)`). -/
def loggerCapacity : Nat := 4096

/-- Interleaving state of the log relay: the consumer's `self.run` flag, the
shared queue contents, the records already handed to their loggers, whether the
`while self.run` loop has exited, and whether the consumer crashed (a record
whose name matches no known logger makes `loggers.get` return `None` and
`None.handle` raise). -/
structure LoggerState where
  run : Bool
  queue : List LogRecord
  handled : List LogRecord
  exited : Bool
  crashed : Bool
deriving DecidableEq, Repr

/-- The state at consumer start (`self.run = True`, empty queue). -/
def initLoggerState : LoggerState :=
  { run := true, queue := [], handled := [], exited := false, crashed := false }

/-- The interleaved events: a producer enqueues a record (non-blocking, dropped
at capacity), a termination signal invokes `Logger.stop`, or the consumer loop
performs one iteration of `Logger.__call__`. -/
inductive LogEvent where
  | enqueue : LogRecord → LogEvent
  | signal : LogEvent
  | iterate : LogEvent
deriving DecidableEq, Repr

/-- One interleaving step of the log relay.  An `iterate` first re-tests
`while self.run`: with `run` cleared the loop exits immediately, regardless of
what remains in the queue; with an empty queue `get_nowait` raises `Empty` and
the loop just continues (non-blocking poll); otherwise one record is dequeued
and handled by its logger. -/
def loggerStep (s : LoggerState) : LogEvent → LoggerState
  | .enqueue r =>
    if s.queue.length < loggerCapacity then { s with queue := s.queue ++ [r] } else s
  | .signal => if s.run then { s with run := false } else s
  | .iterate =>
    if s.exited || s.crashed then s
    else if !s.run then { s with exited := true }
    else
      match s.queue with
      | [] => s
      | r :: rest =>
        if knownLoggers.contains r.name then
          { s with queue := rest, handled := s.handled ++ [r] }
        else { s with queue := rest, crashed := true }

/-- Run a sequence of interleaved events from consumer start. -/
def loggerRun (events : List LogEvent) : LoggerState :=
  events.foldl loggerStep initLoggerState

/-- Is an exception a `ValueError`? -/
def Err.isVE : Err → Bool
  | .valueError _ => true
  | _ => false

/-- Is this result a failure that the alternative-trying checks catch
(`except (ValueError, TypeError)`)? -/
def isCaught {a : Type} : Except Err a → Bool
  | .error (.valueError _) => true
  | .error (.typeError _) => true
  | _ => false

/-- Is a type object one of the plain primitive classes? -/
def isPrimType : PyType → Bool
  | .tInt => true
  | .tStr => true
  | .tBool => true
  | _ => false

/-- Fixture: the compiled hint of a plain `str` field. -/
def strFieldHint : Hint := Hint.mk .tStr false false false false Option.none [] false

/-- Fixture: the compiled hint of a plain `int` field. -/
def intFieldHint : Hint := Hint.mk .tInt false false false false Option.none [] false

/-- Fixture: the compiled hint of a plain `bool` field. -/
def boolFieldHint : Hint := Hint.mk .tBool false false false false Option.none [] false

/-- Fixture: the compiled hint of an `Optional[int]` field (typed, nullable,
one allowed alternative). -/
def optionalIntHint : Hint :=
  Hint.mk (.tUnion [.tInt, .tNone]) false false true true (some .union) [intFieldHint] false

/-- Fixture: the compiled hint of a `Union[int, str]` field. -/
def unionIntStrHint : Hint :=
  Hint.mk (.tUnion [.tInt, .tStr]) false false true false (some .union)
    [intFieldHint, strFieldHint] false

/-- Fixture: the compiled hint of a `List[str]` field. -/
def listStrHint : Hint :=
  Hint.mk (.tList (some .tStr)) false false true false (some .listT) [strFieldHint] false

/-- Fixture: an `int` field hint marked `allow_missing` (default factory). -/
def intMissingHint : Hint := Hint.mk .tInt false false false false Option.none [] true

/-- Fixture: a nested-model field hint marked `allow_missing`. -/
def nestedModelHint : Hint :=
  Hint.mk (.tModel "PersonID") true false false false Option.none [] true

/-- Fixture: schema of `Person` with the single field `name: str`. -/
def personSchema : Schema :=
  [("Person", { sig := [{ name := "name", default := Option.none }],
                hints := [("name", strFieldHint)] })]

/-- Fixture: schema of `Flag` with the single field `b: bool`. -/
def flagSchema : Schema :=
  [("Flag", { sig := [{ name := "b", default := Option.none }],
              hints := [("b", boolFieldHint)] })]

/-- Fixture: schema of `Outer` whose field `x` is a nested model with a default
factory (the bound default is the `_HAS_DEFAULT_FACTORY` sentinel). -/
def outerSchema : Schema :=
  [("Outer", { sig := [{ name := "x", default := some (.sentinel .hasDefaultFactory) }],
               hints := [("x", nestedModelHint)] })]

/-- Fixture: schema of `Counts` whose field `x: int` has a default factory. -/
def countsSchema : Schema :=
  [("Counts", { sig := [{ name := "x", default := some (.sentinel .hasDefaultFactory) }],
                hints := [("x", intMissingHint)] })]

/-- Fixture: a log record from the root logger. -/
def rootRecord : LogRecord := { name := "sanic.root", message := "hello" }

/-- Does this result carry a raised `TypeError`? -/
def isTypeError {a : Type} : Except Err a → Bool
  | .error (.typeError _) => true
  | _ => false

/-- A compiled hint for a plain primitive field: untyped, not a nested model,
not a literal, with a primitive class as its raw type. -/
def primFieldHint (h : Hint) : Prop :=
  h.typed = false ∧ h.model = false ∧ h.literal = false ∧ isPrimType h.hint = true

theorem validate_prim_id (fuel : Nat) (h : Hint) (v : Val) (schema : Schema)
    (ac attrs : Bool) (hp : primFieldHint h) (hv : isinstance v h.hint = .ok true) :
    Hint.validate (fuel + 1) h v schema false ac attrs = .ok v := by
  obtain ⟨h1, h2, h3, h4⟩ := hp
  simp [Hint.validate, h1, h2, h3, _check_types, hv]

theorem hydrate_prim_id (fuel : Nat) (hints : List (String × Hint)) (schema : Schema)
    (ac attrs : Bool) (params : List (String × Val))
    (hall : ∀ kv ∈ params, ∃ h, hints.lookup kv.fst = some h ∧ primFieldHint h ∧
      isinstance kv.snd h.hint = .ok true) :
    hydrate (fuel + 1) hints params schema false ac attrs = .ok params := by
  induction params with
  | nil => simp [hydrate]
  | cons kv rest ih =>
    obtain ⟨h, hlook, hp, hinst⟩ := hall kv (List.mem_cons_self kv rest)
    obtain ⟨k, v⟩ := kv
    have hrest := ih (fun kv hkv => hall kv (List.mem_cons_of_mem _ hkv))
    simp only at hlook hinst
    rw [hydrate]
    simp only [hlook, validate_prim_id fuel h v schema ac attrs hp hinst, hrest]

theorem findMissingParam_eq_none (data : List (String × Val)) (sig : List Param)
    (h : ∀ p ∈ sig, (data.lookup p.name).isSome = true) :
    findMissingParam data sig = Option.none := by
  induction sig with
  | nil => rfl
  | cons p rest ih =>
    have hp := h p (List.mem_cons_self p rest)
    have hrest := ih (fun q hq => h q (List.mem_cons_of_mem _ hq))
    rw [findMissingParam]
    cases hl : data.lookup p.name with
    | none => rw [hl] at hp; simp at hp
    | some v => cases p.default <;> simp [hrest]

theorem findUnexpected_eq_none (names : List String) (data : List (String × Val))
    (h : ∀ kv ∈ data, names.contains kv.fst = true) :
    findUnexpected names data = Option.none := by
  induction data with
  | nil => rfl
  | cons kv rest ih =>
    obtain ⟨k, v⟩ := kv
    have hk := h (k, v) (List.mem_cons_self _ rest)
    simp only at hk
    rw [findUnexpected, if_pos hk]
    exact ih (fun kv hkv => h kv (List.mem_cons_of_mem _ hkv))

theorem bindSig_full (sig : List Param) (data : List (String × Val))
    (h1 : ∀ p ∈ sig, (data.lookup p.name).isSome = true)
    (h2 : ∀ kv ∈ data, ((sig.map Param.name).contains kv.fst) = true) :
    bindSig sig data = .ok (sig.map fun p => (p.name, boundValue data p)) := by
  rw [bindSig, findMissingParam_eq_none data sig h1,
    findUnexpected_eq_none (sig.map Param.name) data h2]

/-- C1: identity law.  For a model whose declared fields are all plain primitive
types, with every datum already an instance of its declared type and no
unexpected key, `check_data` with `allow_multiple = False` and
`allow_coerce = False` returns an instance whose field values are exactly the
corresponding input values (each constructed field value is the looked-up
datum, unchanged). -/
theorem C1_check_data_identity (fuel : Nat) (model : String) (schema : Schema)
    (entry : SchemaEntry) (data : List (String × Val)) (attrs : Bool)
    (hentry : schema.lookup model = some entry)
    (hfields : ∀ p ∈ entry.sig, ∃ h, entry.hints.lookup p.name = some h ∧
      primFieldHint h ∧ ∃ v, data.lookup p.name = some v ∧ isinstance v h.hint = .ok true)
    (hkeys : ∀ kv ∈ data, ((entry.sig.map Param.name).contains kv.fst) = true) :
    check_data (fuel + 2) model (.dict data) schema false false attrs =
      .ok (.inst model (entry.sig.map fun p => (p.name, boundValue data p)))
    ∧ ∀ p ∈ entry.sig, data.lookup p.name = some (boundValue data p) := by
  have hlookups : ∀ p ∈ entry.sig, (data.lookup p.name).isSome = true := by
    intro p hp
    obtain ⟨h, _, _, v, hv, _⟩ := hfields p hp
    rw [hv]; rfl
  have hvals : ∀ p ∈ entry.sig, data.lookup p.name = some (boundValue data p) := by
    intro p hp
    obtain ⟨h, _, _, v, hv, _⟩ := hfields p hp
    rw [hv, boundValue, hv]
  refine ⟨?_, hvals⟩
  have hbind := bindSig_full entry.sig data hlookups hkeys
  have hhyd : hydrate (fuel + 1) entry.hints
      (entry.sig.map fun p => (p.name, boundValue data p)) schema false false attrs =
      .ok (entry.sig.map fun p => (p.name, boundValue data p)) := by
    apply hydrate_prim_id
    intro kv hkv
    obtain ⟨p, hp, hkveq⟩ := List.mem_map.mp hkv
    obtain ⟨h, hlook, hprim, v, hv, hinst⟩ := hfields p hp
    refine ⟨h, ?_, hprim, ?_⟩
    · rw [← hkveq]; exact hlook
    · rw [← hkveq]
      have : boundValue data p = v := by rw [boundValue, hv]
      simp only [this]
      exact hinst
  show check_data (fuel + 1 + 1) model (.dict data) schema false false attrs = _
  rw [check_data]
  simp only [hentry, hbind, hhyd]

/-- Witness for C1: `Person(name: str)` with input `name = "george"` and
`allow_coerce = False` yields an instance with `name == "george"`. -/
theorem C1_witness :
    check_data 2 "Person" (.dict [("name", .str "george")]) personSchema false false true =
      .ok (.inst "Person" [("name", .str "george")]) := by
  have h := C1_check_data_identity 0 "Person" personSchema
    { sig := [{ name := "name", default := Option.none }], hints := [("name", strFieldHint)] }
    [("name", .str "george")] true rfl
    (by
      intro p hp
      simp only [List.mem_singleton] at hp
      subst hp
      exact ⟨strFieldHint, rfl, ⟨rfl, rfl, rfl, rfl⟩, .str "george", rfl, rfl⟩)
    (by
      intro kv hkv
      simp only [List.mem_singleton] at hkv
      subst hkv
      rfl)
  exact h.1

theorem bindSig_errors_typeError (sig : List Param) (data : List (String × Val)) (e : Err)
    (h : bindSig sig data = .error e) : ∃ m, e = .typeError m := by
  rw [bindSig] at h
  split at h
  · injection h with h'; exact ⟨_, h'.symm⟩
  · split at h
    · injection h with h'; exact ⟨_, h'.symm⟩
    · simp at h

/-- C2 (amended): no raw `ValueError` ever escapes `check_data` — every
internal `ValueError` is either swallowed by the `allow_missing` exemption or
re-raised wrapped in `TypeError`; the exceptions that can escape are
`TypeError`, and (unwrapped) `AttributeError`/`KeyError` from coercion helpers
applied to non-string values or a schema without the model's entry.  Any error
outcome carries no constructed model instance. -/
theorem C2_no_valueError_escapes (fuel : Nat) (model : String) (data : Val)
    (schema : Schema) (am ac attrs : Bool) (e : Err)
    (h : check_data fuel model data schema am ac attrs = .error e) : e.isVE = false := by
  cases fuel with
  | zero =>
    rw [check_data] at h
    injection h with h'
    subst h'
    rfl
  | succ fuel =>
    cases data
    case dict d =>
      rw [check_data] at h
      split at h
      · injection h with h'; subst h'; rfl
      · split at h
        · rename_i e1 hb
          injection h with h'
          subst h'
          obtain ⟨m, rfl⟩ := bindSig_errors_typeError _ _ _ hb
          rfl
        · split at h
          · injection h
          · injection h with h'; subst h'; rfl
          · rename_i e2 hne heq
            injection h with h'
            subst h'
            cases e2 <;> first | rfl | exact (hne _ rfl).elim
    all_goals (simp only [check_data] at h; injection h with h'; subst h'; rfl)

/-- Witness for C2's amended statement: a concrete failing `check_data` call
(non-dict input) whose escaped error is not a raw `ValueError`. -/
theorem C2_no_valueError_escapes_witness :
    Err.isVE (Err.typeError ("Value " ++ apos ++ "None" ++ apos ++ " is not a dict")) = false :=
  C2_no_valueError_escapes 1 "Person" Val.none personSchema false false true
    (Err.typeError ("Value " ++ apos ++ "None" ++ apos ++ " is not a dict"))
    (by simp [check_data, strVal, reprVal])

/-- C2 counterexample: a `bool` field given the integer `5` with
`allow_coerce = True` makes `str_to_bool` call `5 .lower()`, and the resulting
`AttributeError` — not a `TypeError` — escapes `check_data`. -/
theorem C2_counterexample :
    check_data 3 "Flag" (.dict [("b", .int 5)]) flagSchema false true true =
      .error (.attributeError
        (apos ++ "5" ++ apos ++ " object has no attribute " ++ apos ++ "lower" ++ apos)) := by
  simp [check_data, hydrate, Hint.validate, _check_nullability, nullLoop, _check_inclusion,
    incLoop, _check_list, elemsLoop, _check_dict, entriesLoop, bindSig, findMissingParam,
    findUnexpected, boundValue, Hint.coerce, Hint.coerceLoop, Hint._do_coerce, coerceEach,
    Hint.get_coercer, str_to_bool, str_to_none, callType, _check_types, isinstance,
    filterNonNone, get_args, is_generic, is_optional, Hint.coerce_type, unwrapSingle,
    PyType.isBareList, PyType.isTNone, truthy, pyParseInt, digitsToNat, inMISSING, MISSING,
    pyEq, mustBeA, mustBeOneOf, strHint, strHintList, strVal, reprVal,
    Hint.typed, Hint.model, Hint.literal, Hint.nullable, Hint.origin, Hint.allowed,
    Hint.allow_missing, Hint.hint, flagSchema, boolFieldHint, Val.isNone, Val.isList,
    allNone, anyNotNone, truthyTokens, falsyTokens]
  rfl

theorem isCaught_cases {a : Type} (r : Except Err a) (h : isCaught r = true) :
    (∃ m, r = .error (.valueError m)) ∨ ∃ m, r = .error (.typeError m) := by
  cases r with
  | ok v => simp [isCaught] at h
  | error e =>
    cases e with
    | valueError m => exact .inl ⟨m, rfl⟩
    | typeError m => exact .inr ⟨m, rfl⟩
    | attributeError m => simp [isCaught] at h
    | keyError m => simp [isCaught] at h
    | outOfFuel => simp [isCaught] at h

theorem incLoop_first_success (fuel : Nat) (allowedAll : List Hint) (value v : Val)
    (front : List Hint) (h0 : Hint) (back : List Hint) (schema : Schema) (am ac attrs : Bool)
    (hfail : ∀ g ∈ front, isCaught (Hint.validate fuel g value schema am ac attrs) = true)
    (hok : Hint.validate fuel h0 value schema am ac attrs = .ok v) :
    incLoop fuel allowedAll value (front ++ h0 :: back) schema am ac attrs = .ok v := by
  induction front with
  | nil =>
    rw [List.nil_append, incLoop, hok]
  | cons g gs ih =>
    have hg := hfail g (List.mem_cons_self g gs)
    have hrest := ih (fun g' hg' => hfail g' (List.mem_cons_of_mem _ hg'))
    rw [List.cons_append, incLoop]
    rcases isCaught_cases _ hg with ⟨m, hm⟩ | ⟨m, hm⟩ <;> simp only [hm] <;> exact hrest

theorem incLoop_all_fail (fuel : Nat) (allowedAll : List Hint) (value : Val)
    (rem : List Hint) (schema : Schema) (am ac attrs : Bool)
    (hfail : ∀ g ∈ rem, isCaught (Hint.validate fuel g value schema am ac attrs) = true) :
    incLoop fuel allowedAll value rem schema am ac attrs =
      .error (.valueError (mustBeOneOf value allowedAll)) := by
  induction rem with
  | nil => rw [incLoop]
  | cons g gs ih =>
    have hg := hfail g (List.mem_cons_self g gs)
    have hrest := ih (fun g' hg' => hfail g' (List.mem_cons_of_mem _ hg'))
    rw [incLoop]
    rcases isCaught_cases _ hg with ⟨m, hm⟩ | ⟨m, hm⟩ <;> simp only [hm] <;> exact hrest

/-- C3: union/literal alternative resolution in `_check_inclusion` is strictly
first-match-wins in declaration order: with every earlier alternative failing
with a caught error (`ValueError`/`TypeError`), the first alternative that
validates determines the result, whatever alternatives follow it; and when
every alternative fails with a caught error, the raised `ValueError` message
enumerates all allowed alternatives. -/
theorem C3_first_match_wins :
    (∀ (fuel : Nat) (value v : Val) (front : List Hint) (h0 : Hint) (back : List Hint)
      (schema : Schema) (am ac attrs : Bool),
      (∀ g ∈ front, isCaught (Hint.validate fuel g value schema am ac attrs) = true) →
      Hint.validate fuel h0 value schema am ac attrs = .ok v →
      _check_inclusion (fuel + 1) value (front ++ h0 :: back) schema am ac attrs = .ok v)
  ∧ (∀ (fuel : Nat) (value : Val) (allowed : List Hint) (schema : Schema) (am ac attrs : Bool),
      (∀ g ∈ allowed, isCaught (Hint.validate fuel g value schema am ac attrs) = true) →
      _check_inclusion (fuel + 1) value allowed schema am ac attrs =
        .error (.valueError (mustBeOneOf value allowed))) := by
  constructor
  · intro fuel value v front h0 back schema am ac attrs hfail hok
    rw [_check_inclusion]
    exact incLoop_first_success fuel _ value v front h0 back schema am ac attrs hfail hok
  · intro fuel value allowed schema am ac attrs hfail
    rw [_check_inclusion]
    exact incLoop_all_fail fuel allowed value allowed schema am ac attrs hfail

/-- Witness for C3: `Union[int, str]` alternatives — the string "x" fails the
`int` alternative and validates as the `str` alternative; the empty list value
fails both and the error names both alternatives. -/
theorem C3_witness :
    _check_inclusion 6 (.str "x") [intFieldHint, strFieldHint] [] false false true =
      .ok (.str "x")
    ∧ _check_inclusion 6 (.list []) [intFieldHint, strFieldHint] [] false false true =
      .error (.valueError (mustBeOneOf (.list []) [intFieldHint, strFieldHint])) := by
  constructor
  · exact C3_first_match_wins.1 5 (.str "x") (.str "x") [intFieldHint] strFieldHint [] []
      false false true
      (by
        intro g hg
        simp only [List.mem_singleton] at hg
        subst hg
        simp [Hint.validate, _check_types, isinstance, intFieldHint, Hint.typed, Hint.model,
          Hint.literal, Hint.hint, Hint.coerce_type, PyType.isBareList, is_optional,
          unwrapSingle, isCaught])
      (by
        simp [Hint.validate, _check_types, isinstance, strFieldHint, Hint.typed, Hint.model,
          Hint.literal, Hint.hint, Hint.coerce_type, PyType.isBareList, is_optional,
          unwrapSingle])
  · exact C3_first_match_wins.2 5 (.list []) [intFieldHint, strFieldHint] [] false false true
      (by
        intro g hg
        simp only [List.mem_cons, List.mem_singleton] at hg
        rcases hg with rfl | rfl | h
        · simp [Hint.validate, _check_types, isinstance, intFieldHint, Hint.typed, Hint.model,
            Hint.literal, Hint.hint, Hint.coerce_type, PyType.isBareList, is_optional,
            unwrapSingle, isCaught]
        · simp [Hint.validate, _check_types, isinstance, strFieldHint, Hint.typed, Hint.model,
            Hint.literal, Hint.hint, Hint.coerce_type, PyType.isBareList, is_optional,
            unwrapSingle, isCaught]
        · cases h)

theorem do_coerce_nullish (v : Val)
    (hv : v.isNone = true ∨ ∃ s, v = .str s ∧ ["null", "none", ""].contains (pyLower s) = true) :
    Hint._do_coerce v str_to_none false = .ok .none := by
  rcases hv with hv | ⟨s, rfl, hs⟩
  · have : v = .none := by cases v <;> simp_all [Val.isNone]
    subst this
    rw [Hint._do_coerce] <;> simp [str_to_none]
  · have hs' : pyLower s = "null" ∨ pyLower s = "none" ∨ pyLower s = "" := by simpa using hs
    rw [Hint._do_coerce] <;> simp [str_to_none, hs']

theorem coerce_nullish (h : Hint) (v : Val) (am : Bool)
    (hn : h.nullable = true)
    (hcts : is_generic h.coerce_type = false ∨
      ∃ l, filterNonNone (get_args h.coerce_type) = .ok l)
    (hv : v.isNone = true ∨ ∃ s, v = .str s ∧ ["null", "none", ""].contains (pyLower s) = true) :
    Hint.coerce h v am = .ok .none := by
  have hstn := do_coerce_nullish v hv
  rw [Hint.coerce]
  rcases hcts with hg | ⟨l, hl⟩
  · simp [hg, hn, hstn, Val.isNone]
  · by_cases hg : is_generic h.coerce_type
    · simp only [hg, if_true, hn, hstn, Val.isNone]
      split
      · rename_i e heq
        split at heq
        · cases heq
        · simp [hl] at heq
      · rfl
      · rename_i cts heq
        simp [hn, hstn]
    · simp [hg, hn, hstn, Val.isNone]

theorem validate_nullable_sentinel (fuel : Nat) (h : Hint) (v : Val) (schema : Schema)
    (am attrs : Bool) (ht : h.typed = true) (hn : h.nullable = true)
    (hcts : is_generic h.coerce_type = false ∨
      ∃ l, filterNonNone (get_args h.coerce_type) = .ok l)
    (hv : v.isNone = true ∨ ∃ s, v = .str s ∧ ["null", "none", ""].contains (pyLower s) = true) :
    Hint.validate (fuel + 2) h v schema am true attrs = .ok .none := by
  have hco := coerce_nullish h v am hn hcts hv
  have hcn : _check_nullability (fuel + 1) .none true h.allowed schema am true attrs =
      .ok .none := by
    rw [_check_nullability]
    simp [Val.isNone]
  rw [Hint.validate]
  simp [ht, hco, hcn, hn]

theorem validate_typed_nonnull_none (fuel : Nat) (h : Hint) (schema : Schema)
    (am attrs : Bool) (ht : h.typed = true) (hn : h.nullable = false) :
    Hint.validate (fuel + 2) h .none schema am false attrs =
      .error (.valueError "Value cannot be None") := by
  have hcn : _check_nullability (fuel + 1) .none h.nullable h.allowed schema am false attrs =
      .error (.valueError "Value cannot be None") := by
    rw [_check_nullability]
    simp [hn, Val.isNone]
  rw [Hint.validate]
  simp [ht, hcn]

theorem validate_prim_none_fails (fuel : Nat) (h : Hint) (schema : Schema)
    (am attrs : Bool) (hp : h.typed = false) (hm : h.model = false) (hl : h.literal = false)
    (hprim : isPrimType h.hint = true) :
    Hint.validate (fuel + 1) h .none schema am false attrs =
      .error (.valueError
        ("Value " ++ apos ++ "None" ++ apos ++ " is not of type " ++ strHint h.hint)) := by
  have hcases : h.hint = .tInt ∨ h.hint = .tStr ∨ h.hint = .tBool := by
    cases hh : h.hint <;> rw [hh] at hprim <;> simp [isPrimType] at hprim <;> simp
  rw [Hint.validate]
  rcases hcases with hh | hh | hh <;>
    simp [hp, hm, hl, hh, _check_types, isinstance, strVal, reprVal, unwrapSingle, ite_self]

theorem validate_model_none_fails (fuel : Nat) (h : Hint) (schema : Schema)
    (am ac attrs : Bool) (n : String) (hp : h.typed = false) (hm : h.model = true)
    (hname : pyTypeName h.hint = some n) :
    Hint.validate (fuel + 2) h .none schema am ac attrs =
      .error (.typeError ("Value " ++ apos ++ "None" ++ apos ++ " is not a dict")) := by
  rw [Hint.validate]
  simp [hp, hm, hname, check_data, strVal, reprVal]

/-- C4 (amended): nullability handling.  (1)/(2) A typed nullable Hint whose
coerce target is a plain type, or a generic whose arguments pass the `NoneType`
filter without raising, validates the absent-value sentinels — the
case-insensitive strings "null"/"none", the empty string, and actual `None` —
to `None` when `allow_coerce` is set.  (3)–(5) A non-nullable Hint (typed,
untyped primitive, or nested model) always rejects `None` when `allow_coerce`
is false, for either `allow_multiple` mode; with `allow_coerce = True` the
rejection can fail (see the counterexample: `str(None)` yields `"None"`). -/
theorem C4_nullability :
    (∀ (fuel : Nat) (h : Hint) (schema : Schema) (am attrs : Bool) (s : String),
      h.typed = true → h.nullable = true →
      (is_generic h.coerce_type = false ∨
        ∃ l, filterNonNone (get_args h.coerce_type) = .ok l) →
      ["null", "none", ""].contains (pyLower s) = true →
      Hint.validate (fuel + 2) h (.str s) schema am true attrs = .ok .none)
  ∧ (∀ (fuel : Nat) (h : Hint) (schema : Schema) (am attrs : Bool),
      h.typed = true → h.nullable = true →
      (is_generic h.coerce_type = false ∨
        ∃ l, filterNonNone (get_args h.coerce_type) = .ok l) →
      Hint.validate (fuel + 2) h .none schema am true attrs = .ok .none)
  ∧ (∀ (fuel : Nat) (h : Hint) (schema : Schema) (am attrs : Bool),
      h.typed = true → h.nullable = false →
      Hint.validate (fuel + 2) h .none schema am false attrs =
        .error (.valueError "Value cannot be None"))
  ∧ (∀ (fuel : Nat) (h : Hint) (schema : Schema) (am attrs : Bool),
      h.typed = false → h.model = false → h.literal = false → isPrimType h.hint = true →
      Hint.validate (fuel + 1) h .none schema am false attrs =
        .error (.valueError
          ("Value " ++ apos ++ "None" ++ apos ++ " is not of type " ++ strHint h.hint)))
  ∧ (∀ (fuel : Nat) (h : Hint) (schema : Schema) (am ac attrs : Bool) (n : String),
      h.typed = false → h.model = true → pyTypeName h.hint = some n →
      Hint.validate (fuel + 2) h .none schema am ac attrs =
        .error (.typeError ("Value " ++ apos ++ "None" ++ apos ++ " is not a dict"))) := by
  refine ⟨?_, ?_, ?_, ?_, ?_⟩
  · intro fuel h schema am attrs s ht hn hcts hs
    exact validate_nullable_sentinel fuel h (.str s) schema am attrs ht hn hcts
      (.inr ⟨s, rfl, hs⟩)
  · intro fuel h schema am attrs ht hn hcts
    exact validate_nullable_sentinel fuel h .none schema am attrs ht hn hcts (.inl rfl)
  · intro fuel h schema am attrs ht hn
    exact validate_typed_nonnull_none fuel h schema am attrs ht hn
  · intro fuel h schema am attrs hp hm hl hprim
    exact validate_prim_none_fails fuel h schema am attrs hp hm hl hprim
  · intro fuel h schema am ac attrs n hp hm hname
    exact validate_model_none_fails fuel h schema am ac attrs n hp hm hname

/-- Witness for C4's amended statement: `Optional[int]` maps "null" and `None`
to `None` under coercion, and non-nullable `Union[int, str]` rejects `None`
without coercion. -/
theorem C4_nullability_witness :
    Hint.validate 3 optionalIntHint (.str "null") [] false true true = .ok .none
    ∧ Hint.validate 3 optionalIntHint .none [] false true true = .ok .none
    ∧ Hint.validate 3 unionIntStrHint .none [] false false true =
        .error (.valueError "Value cannot be None") := by
  refine ⟨?_, ?_, ?_⟩
  · exact C4_nullability.1 1 optionalIntHint [] false true "null" rfl rfl (.inl rfl) (by decide)
  · exact C4_nullability.2.1 1 optionalIntHint [] false true rfl rfl (.inl rfl)
  · exact C4_nullability.2.2.1 1 unionIntStrHint [] false true rfl rfl

/-- C4 counterexample: the non-nullable plain `str` hint, given `None` with
`allow_coerce = True`, does not fail — coercion turns `None` into the string
"None" and validation succeeds, contradicting "validating the value None always
fails, for every combination of the allow_multiple and allow_coerce flags". -/
theorem C4_counterexample :
    strFieldHint.nullable = false
    ∧ Hint.validate 2 strFieldHint .none [] false true true = .ok (.str "None") := by
  refine ⟨rfl, ?_⟩
  simp [Hint.validate, _check_types, isinstance, strFieldHint, Hint.typed, Hint.model,
    Hint.literal, Hint.nullable, Hint.hint, Hint.coerce_type, PyType.isBareList, is_optional,
    unwrapSingle, Hint.coerce, Hint.coerceLoop, Hint._do_coerce, coerceEach, Hint.get_coercer,
    callType, str_to_bool, str_to_none, is_generic, get_args, filterNonNone, strVal, reprVal,
    truthy, Val.isNone, Val.isList, allNone, ite_self]

theorem unwrapSingle_not_list (v : Val) (hv : v.isList = false) : unwrapSingle v = v := by
  cases v <;> simp_all [Val.isList, unwrapSingle]

theorem coerce_bool_unrecognized (h : Hint) (s : String) (am : Bool)
    (hh : h.hint = .tBool) (hn : h.nullable = false)
    (ht : truthyTokens.contains (pyLower s) = false)
    (hf : falsyTokens.contains (pyLower s) = false) :
    Hint.coerce h (.str s) am = .ok (.str s) := by
  have ht' : pyLower s ∉ truthyTokens := by simpa using ht
  have hf' : pyLower s ∉ falsyTokens := by simpa using hf
  rw [Hint.coerce]
  simp [Hint.coerce_type, hh, hn, is_optional, is_generic, Hint.coerceLoop, isinstance,
    Hint._do_coerce, Hint.get_coercer, str_to_bool, ht', hf']

/-- C5 (amended): `Hint.coerce` never signals failure for a `bool` target by
raising — recognized truthy/falsy tokens convert deterministically to
`True`/`False`, while an unrecognized string comes back unchanged (the trailing
`return value`); the failure is surfaced only by `Hint.validate`'s re-check,
which raises the field's `ValueError`. -/
theorem C5_bool_coercion :
    (∀ (h : Hint) (s : String) (am : Bool), h.hint = .tBool → h.nullable = false →
      truthyTokens.contains (pyLower s) = false → falsyTokens.contains (pyLower s) = false →
      Hint.coerce h (.str s) am = .ok (.str s))
  ∧ (∀ (h : Hint) (s : String) (am : Bool), h.hint = .tBool → h.nullable = false →
      truthyTokens.contains (pyLower s) = true →
      Hint.coerce h (.str s) am = .ok (.bool true))
  ∧ (∀ (h : Hint) (s : String) (am : Bool), h.hint = .tBool → h.nullable = false →
      truthyTokens.contains (pyLower s) = false → falsyTokens.contains (pyLower s) = true →
      Hint.coerce h (.str s) am = .ok (.bool false))
  ∧ (∀ (fuel : Nat) (h : Hint) (s : String) (schema : Schema) (am attrs : Bool),
      h.typed = false → h.model = false → h.literal = false → h.hint = .tBool →
      h.nullable = false →
      truthyTokens.contains (pyLower s) = false → falsyTokens.contains (pyLower s) = false →
      Hint.validate (fuel + 1) h (.str s) schema am true attrs =
        .error (.valueError
          ("Value " ++ apos ++ s ++ apos ++ " is not of type " ++ strHint .tBool))) := by
  refine ⟨coerce_bool_unrecognized, ?_, ?_, ?_⟩
  · intro h s am hh hn ht
    have ht' : pyLower s ∈ truthyTokens := by simpa using ht
    rw [Hint.coerce]
    simp [Hint.coerce_type, hh, hn, is_optional, is_generic, Hint.coerceLoop, isinstance,
      Hint._do_coerce, Hint.get_coercer, str_to_bool, ht']
  · intro h s am hh hn ht hf
    have ht' : pyLower s ∉ truthyTokens := by simpa using ht
    have hf' : pyLower s ∈ falsyTokens := by simpa using hf
    rw [Hint.coerce]
    simp [Hint.coerce_type, hh, hn, is_optional, is_generic, Hint.coerceLoop, isinstance,
      Hint._do_coerce, Hint.get_coercer, str_to_bool, ht', hf']
  · intro fuel h s schema am attrs hp hm hl hh hn ht hf
    have hco := coerce_bool_unrecognized h s false hh hn ht hf
    have hu : unwrapSingle (Val.str s) = Val.str s := unwrapSingle_not_list _ rfl
    rw [Hint.validate]
    simp [hp, hm, hl, hh, hco, hu, _check_types, isinstance, strVal, ite_self]

/-- Witness for C5's amended statement: "hello" is unrecognized and comes back
unchanged from `coerce`, "Yes" converts to `True`, "off" to `False`, and
`validate` with coercion surfaces the unrecognized token as the field's
`ValueError`. -/
theorem C5_bool_coercion_witness :
    Hint.coerce boolFieldHint (.str "hello") false = .ok (.str "hello")
    ∧ Hint.coerce boolFieldHint (.str "Yes") false = .ok (.bool true)
    ∧ Hint.coerce boolFieldHint (.str "off") false = .ok (.bool false)
    ∧ Hint.validate 1 boolFieldHint (.str "hello") [] false true true =
        .error (.valueError
          ("Value " ++ apos ++ "hello" ++ apos ++ " is not of type " ++ strHint .tBool)) := by
  refine ⟨?_, ?_, ?_, ?_⟩
  · exact C5_bool_coercion.1 boolFieldHint "hello" false rfl rfl rfl rfl
  · exact C5_bool_coercion.2.1 boolFieldHint "Yes" false rfl rfl rfl
  · exact C5_bool_coercion.2.2.1 boolFieldHint "off" false rfl rfl rfl rfl
  · exact C5_bool_coercion.2.2.2 0 boolFieldHint "hello" [] false true rfl rfl rfl rfl rfl
      rfl rfl

/-- C5 counterexample: coercing the unrecognized boolean token "hello" toward a
`bool` target neither converts nor raises — `Hint.coerce` returns the
unconverted string itself, contradicting "causes a raised failure rather than
the unconverted string being returned as the result of coerce". -/
theorem C5_counterexample :
    Hint.coerce boolFieldHint (.str "hello") false = .ok (.str "hello") := by
  rw [Hint.coerce]
  simp [Hint.coerce_type, boolFieldHint, Hint.hint, Hint.nullable, is_optional, is_generic,
    Hint.coerceLoop, isinstance, Hint._do_coerce, Hint.get_coercer, str_to_bool,
    truthyTokens, falsyTokens, pyLower, lowerChar]

theorem elemsLoop_forall2 (fuel : Nat) (allowed : List Hint) (schema : Schema)
    (am ac attrs : Bool) (xs ys : List Val)
    (h : List.Forall₂
      (fun x y => _check_inclusion fuel x allowed schema am ac attrs = .ok y) xs ys) :
    elemsLoop fuel allowed xs schema am ac attrs = .ok ys := by
  induction h with
  | nil => rw [elemsLoop]
  | cons hxy htail ih =>
    rw [elemsLoop]
    simp only [hxy, ih]

theorem elemsLoop_fails (fuel : Nat) (allowed : List Hint) (schema : Schema)
    (am ac attrs : Bool) (front back : List Val) (x : Val)
    (hfront : ∀ y ∈ front, ∃ v, _check_inclusion fuel y allowed schema am ac attrs = .ok v)
    (hx : isCaught (_check_inclusion fuel x allowed schema am ac attrs) = true) :
    isCaught (elemsLoop fuel allowed (front ++ x :: back) schema am ac attrs) = true := by
  induction front with
  | nil =>
    rw [List.nil_append, elemsLoop]
    rcases isCaught_cases _ hx with ⟨m, hm⟩ | ⟨m, hm⟩ <;> simp [hm, isCaught]
  | cons y front' ih =>
    obtain ⟨v, hv⟩ := hfront y (List.mem_cons_self y front')
    have hrest := ih (fun y' hy' => hfront y' (List.mem_cons_of_mem _ hy'))
    rw [List.cons_append, elemsLoop]
    rcases isCaught_cases _ hrest with ⟨m, hm⟩ | ⟨m, hm⟩ <;> simp [hv, hm, isCaught]

/-- C6: list validation is all-or-nothing.  A non-list raw value fails naming
the declared list type; a list whose elements all pass the inclusion check
yields the equal-length list of element-validated values in order; and a list
with one element failing (with a caught `ValueError`/`TypeError`) fails the
entire field naming the declared list type. -/
theorem C6_list_all_or_nothing :
    (∀ (fuel : Nat) (value : Val) (allowed : List Hint) (t : PyType) (schema : Schema)
      (am ac attrs : Bool), value.isList = false →
      _check_list (fuel + 1) value allowed t schema am ac attrs =
        .error (.valueError (mustBeA value t)))
  ∧ (∀ (fuel : Nat) (xs ys : List Val) (allowed : List Hint) (t : PyType) (schema : Schema)
      (am ac attrs : Bool),
      List.Forall₂
        (fun x y => _check_inclusion fuel x allowed schema am ac attrs = .ok y) xs ys →
      _check_list (fuel + 1) (.list xs) allowed t schema am ac attrs = .ok (.list ys)
        ∧ ys.length = xs.length)
  ∧ (∀ (fuel : Nat) (front back : List Val) (x : Val) (allowed : List Hint) (t : PyType)
      (schema : Schema) (am ac attrs : Bool),
      (∀ y ∈ front, ∃ v, _check_inclusion fuel y allowed schema am ac attrs = .ok v) →
      isCaught (_check_inclusion fuel x allowed schema am ac attrs) = true →
      _check_list (fuel + 1) (.list (front ++ x :: back)) allowed t schema am ac attrs =
        .error (.valueError (mustBeA (.list (front ++ x :: back)) t))) := by
  refine ⟨?_, ?_, ?_⟩
  · intro fuel value allowed t schema am ac attrs hv
    rw [_check_list]
    cases value <;> simp_all [Val.isList]
  · intro fuel xs ys allowed t schema am ac attrs h
    refine ⟨?_, h.length_eq.symm⟩
    rw [_check_list]
    simp only [elemsLoop_forall2 fuel allowed schema am ac attrs xs ys h]
  · intro fuel front back x allowed t schema am ac attrs hfront hx
    have hel := elemsLoop_fails fuel allowed schema am ac attrs front back x hfront hx
    rw [_check_list]
    rcases isCaught_cases _ hel with ⟨m, hm⟩ | ⟨m, hm⟩ <;> simp only [hm]

/-- Witness for C6: `List[str]` — a non-list fails naming the list type,
`["a", "b"]` validates to itself with the length preserved, and `["a", 2]`
fails the entire field naming the list type. -/
theorem C6_list_all_or_nothing_witness :
    _check_list 5 (.int 3) [strFieldHint] (.tList (some .tStr)) [] false false true =
      .error (.valueError (mustBeA (.int 3) (.tList (some .tStr))))
    ∧ _check_list 5 (.list [.str "a", .str "b"]) [strFieldHint] (.tList (some .tStr)) []
        false false true = .ok (.list [.str "a", .str "b"])
    ∧ _check_list 5 (.list [.str "a", .int 2]) [strFieldHint] (.tList (some .tStr)) []
        false false true =
      .error (.valueError (mustBeA (.list [.str "a", .int 2]) (.tList (some .tStr)))) := by
  have hina : _check_inclusion 4 (.str "a") [strFieldHint] [] false false true =
      .ok (.str "a") := by
    rw [_check_inclusion, incLoop]
    simp [Hint.validate, _check_types, isinstance, strFieldHint, Hint.typed, Hint.model,
      Hint.literal, Hint.hint, Hint.coerce_type, PyType.isBareList, is_optional, unwrapSingle]
  have hinb : _check_inclusion 4 (.str "b") [strFieldHint] [] false false true =
      .ok (.str "b") := by
    rw [_check_inclusion, incLoop]
    simp [Hint.validate, _check_types, isinstance, strFieldHint, Hint.typed, Hint.model,
      Hint.literal, Hint.hint, Hint.coerce_type, PyType.isBareList, is_optional, unwrapSingle]
  have hin2 : isCaught (_check_inclusion 4 (.int 2) [strFieldHint] [] false false true) =
      true := by
    rw [_check_inclusion, incLoop]
    simp [Hint.validate, _check_types, isinstance, strFieldHint, Hint.typed, Hint.model,
      Hint.literal, Hint.hint, Hint.coerce_type, PyType.isBareList, is_optional, unwrapSingle,
      incLoop, isCaught]
  refine ⟨?_, ?_, ?_⟩
  · exact C6_list_all_or_nothing.1 4 (.int 3) [strFieldHint] (.tList (some .tStr)) []
      false false true rfl
  · exact (C6_list_all_or_nothing.2.1 4 [.str "a", .str "b"] [.str "a", .str "b"]
      [strFieldHint] (.tList (some .tStr)) [] false false true
      (.cons hina (.cons hinb .nil))).1
  · exact C6_list_all_or_nothing.2.2 4 [.str "a"] [] (.int 2) [strFieldHint]
      (.tList (some .tStr)) [] false false true
      (by
        intro y hy
        simp only [List.mem_singleton] at hy
        subst hy
        exact ⟨.str "a", hina⟩)
      hin2

theorem hydrate_append (fuel : Nat) (hints : List (String × Hint)) (schema : Schema)
    (am ac attrs : Bool) (xs ys : List (String × Val)) :
    hydrate fuel hints (xs ++ ys) schema am ac attrs =
      (match hydrate fuel hints xs schema am ac attrs with
      | .ok h1 =>
        (match hydrate fuel hints ys schema am ac attrs with
        | .ok h2 => .ok (h1 ++ h2)
        | .error e => .error e)
      | .error e => .error e) := by
  induction xs with
  | nil =>
    rw [List.nil_append, hydrate]
    cases hydrate fuel hints ys schema am ac attrs <;> simp
  | cons kv rest ih =>
    obtain ⟨k, v⟩ := kv
    rw [List.cons_append]
    simp only [hydrate]
    cases hlk : hints.lookup k with
    | none => simp
    | some hint =>
      cases hv : Hint.validate fuel hint v schema am ac attrs with
      | ok v2 =>
        simp only [hv, ih]
        cases hydrate fuel hints rest schema am ac attrs <;>
          cases hydrate fuel hints ys schema am ac attrs <;> simp
      | error e =>
        cases e
        case valueError m =>
          simp only [hv]
          by_cases hcb : (hint.allow_missing && inMISSING attrs v) = true
          · rw [if_pos hcb, if_pos hcb, ih]
          · rw [if_neg hcb, if_neg hcb]
        all_goals simp [hv]

/-- C7 (amended): the `allow_missing` exemption.  For a bound parameter whose
hint validation fails, the failure is swallowed — and the parameter omitted from
the constructor keyword arguments, leaving the constructor to supply the value —
exactly when the failure is a `ValueError` AND the hint is `allow_missing` AND
the bound value is one of the fixed missing sentinels; a failure of any other
class (e.g. the `TypeError` of a nested-model hint) escapes even for an
`allow_missing` hint holding a missing sentinel. -/
theorem C7_allow_missing_exemption (fuel : Nat) (model : String) (schema : Schema)
    (entry : SchemaEntry) (d front rest : List (String × Val)) (k : String) (v : Val)
    (h : Hint) (hv1 : List (String × Val)) (am ac attrs : Bool)
    (hentry : schema.lookup model = some entry)
    (hbind : bindSig entry.sig d = .ok (front ++ (k, v) :: rest))
    (hhint : entry.hints.lookup k = some h)
    (hfront : hydrate fuel entry.hints front schema am ac attrs = .ok hv1) :
    (∀ m, Hint.validate fuel h v schema am ac attrs = .error (.valueError m) →
      check_data (fuel + 1) model (.dict d) schema am ac attrs =
        (if h.allow_missing && inMISSING attrs v then
          (match hydrate fuel entry.hints rest schema am ac attrs with
           | .ok hv2 => .ok (.inst model (hv1 ++ hv2))
           | .error (.valueError m2) => .error (.typeError m2)
           | .error e => .error e)
        else .error (.typeError m)))
  ∧ (∀ e, Hint.validate fuel h v schema am ac attrs = .error e → e.isVE = false →
      check_data (fuel + 1) model (.dict d) schema am ac attrs = .error e) := by
  constructor
  · intro m hm
    rw [check_data]
    simp only [hentry, hbind, hydrate_append, hfront, hydrate, hhint, hm]
    by_cases hcb : (h.allow_missing && inMISSING attrs v) = true
    · rw [if_pos hcb, if_pos hcb]
      cases hydrate fuel entry.hints rest schema am ac attrs with
      | ok hv2 => simp
      | error e2 => cases e2 <;> simp
    · rw [if_neg hcb, if_neg hcb]
  · intro e he hene
    cases e <;> rw [check_data] <;>
      simp only [hentry, hbind, hydrate_append, hfront, hydrate, hhint, he] <;>
      first
        | (simp [Err.isVE] at hene)
        | simp

/-- Witness for C7's amended statement: `Counts(x: int)` with a default factory
— the unsupplied field binds to the `_HAS_DEFAULT_FACTORY` sentinel, its
`ValueError` is swallowed, and the instance is constructed with `x` omitted. -/
theorem C7_allow_missing_exemption_witness :
    check_data 2 "Counts" (.dict []) countsSchema false false true =
      .ok (.inst "Counts" []) := by
  have hm : Hint.validate 1 intMissingHint (.sentinel .hasDefaultFactory) countsSchema
      false false true =
      .error (.valueError
        ("Value " ++ apos ++ "<dataclasses._HAS_DEFAULT_FACTORY_TYPE object>" ++ apos
          ++ " is not of type " ++ strHint .tInt)) := by
    rw [Hint.validate]
    simp [intMissingHint, Hint.typed, Hint.model, Hint.literal, Hint.hint, Hint.coerce_type,
      PyType.isBareList, is_optional, unwrapSingle, _check_types, isinstance, strVal, reprVal,
      ite_self]
  have hfront : hydrate 1 [("x", intMissingHint)] [] countsSchema false false true =
      .ok [] := by rw [hydrate]
  have h := (C7_allow_missing_exemption 1 "Counts" countsSchema
    { sig := [{ name := "x", default := some (.sentinel .hasDefaultFactory) }],
      hints := [("x", intMissingHint)] }
    [] [] [] "x" (.sentinel .hasDefaultFactory) intMissingHint [] false false true
    rfl rfl rfl hfront).1 _ hm
  simp only [hydrate] at h
  simpa [intMissingHint, Hint.allow_missing, inMISSING, MISSING, pyEq] using h

/-- C7 counterexample: a nested-model field hint marked `allow_missing`, bound
to the `_HAS_DEFAULT_FACTORY` sentinel, fails with `TypeError` (the sentinel is
not a dict), and that failure is NOT swallowed although the hint allows missing
values and the value is in the missing sentinel set — contradicting the claimed
"if and only if". -/
theorem C7_counterexample :
    nestedModelHint.allow_missing = true
    ∧ inMISSING true (.sentinel .hasDefaultFactory) = true
    ∧ check_data 3 "Outer" (.dict []) outerSchema false false true =
        .error (.typeError
          ("Value " ++ apos ++ "<dataclasses._HAS_DEFAULT_FACTORY_TYPE object>" ++ apos
            ++ " is not a dict")) := by
  refine ⟨rfl, rfl, ?_⟩
  simp [check_data, hydrate, Hint.validate, bindSig, findMissingParam, findUnexpected,
    boundValue, outerSchema, nestedModelHint, Hint.typed, Hint.model, Hint.literal, Hint.hint,
    Hint.allow_missing, pyTypeName, strVal, reprVal, inMISSING, MISSING, pyEq]

theorem nullLoop_single_reraise (fuel : Nat) (g : Hint) (value : Val) (schema : Schema)
    (am ac attrs : Bool) (m : String)
    (hm : Hint.validate fuel g value schema am ac attrs = .error (.valueError m)) :
    nullLoop fuel [g] value Option.none [g] schema am ac attrs = .error (.valueError m) := by
  rw [nullLoop]
  simp only [hm]
  rw [nullLoop.eq_def]
  simp

theorem nullLoop_allfail_multi (fuel : Nat) (allowedAll : List Hint) (value : Val)
    (schema : Schema) (am ac attrs : Bool)
    (hlen : (allowedAll.length == 1) = false) :
    ∀ (rem : List Hint) (exc : Option Err),
      (∀ g ∈ rem, ∃ m, Hint.validate fuel g value schema am ac attrs =
        .error (.valueError m)) →
      (rem = [] → exc.isSome = true) →
      nullLoop fuel allowedAll value exc rem schema am ac attrs =
        .error (.valueError (mustBeOneOf value allowedAll ++ ", or None")) := by
  intro rem
  induction rem with
  | nil =>
    intro exc _ hsome
    cases exc with
    | none => exact absurd (hsome rfl) (by simp)
    | some e =>
      rw [nullLoop.eq_def]
      simp [hlen]
  | cons g rest ih =>
    intro exc hfail _
    obtain ⟨m, hm⟩ := hfail g (List.mem_cons_self g rest)
    rw [nullLoop.eq_def]
    simp only [hm]
    exact ih _ (fun g' hg' => hfail g' (List.mem_cons_of_mem _ hg')) (fun _ => rfl)

/-- C8: during nullable resolution of a non-None value (in a mode that enters
the alternative loop), when every allowed alternative fails with its own
`ValueError`: with exactly one alternative that alternative's error is re-raised
verbatim, and with two or more alternatives a fresh `ValueError` is raised whose
message lists all the alternatives followed by ", or None". -/
theorem C8_nullable_error_preservation :
    (∀ (fuel : Nat) (g : Hint) (value : Val) (schema : Schema) (am ac attrs : Bool)
      (m : String),
      value.isNone = false →
      (am = false ∨ (value.isList = true ∧ anyNotNone value = true)) →
      Hint.validate fuel g value schema am ac attrs = .error (.valueError m) →
      _check_nullability (fuel + 1) value true [g] schema am ac attrs =
        .error (.valueError m))
  ∧ (∀ (fuel : Nat) (allowed : List Hint) (value : Val) (schema : Schema)
      (am ac attrs : Bool),
      value.isNone = false →
      (am = false ∨ (value.isList = true ∧ anyNotNone value = true)) →
      2 ≤ allowed.length →
      (∀ g ∈ allowed, ∃ m, Hint.validate fuel g value schema am ac attrs =
        .error (.valueError m)) →
      _check_nullability (fuel + 1) value true allowed schema am ac attrs =
        .error (.valueError (mustBeOneOf value allowed ++ ", or None"))) := by
  constructor
  · intro fuel g value schema am ac attrs m hv hguard hm
    rw [_check_nullability]
    have hg : (am == false || (value.isList && anyNotNone value)) = true := by
      rcases hguard with rfl | ⟨hl1, hl2⟩
      · simp
      · simp [hl1, hl2]
    simp only [hv, hg]
    simp only [Bool.not_true, Bool.false_and, Bool.and_false, if_neg]
    exact nullLoop_single_reraise fuel g value schema am ac attrs m hm
  · intro fuel allowed value schema am ac attrs hv hguard hlen2 hfail
    rw [_check_nullability]
    have hg : (am == false || (value.isList && anyNotNone value)) = true := by
      rcases hguard with rfl | ⟨hl1, hl2⟩
      · simp
      · simp [hl1, hl2]
    simp only [hv, hg]
    simp only [Bool.not_true, Bool.false_and, Bool.and_false, if_neg]
    have hlen : (allowed.length == 1) = false := by
      simp only [beq_eq_false_iff_ne]
      omega
    exact nullLoop_allfail_multi fuel allowed value schema am ac attrs hlen allowed
      Option.none hfail (fun hnil => by rw [hnil] at hlen2; simp at hlen2)

/-- Witness for C8: one alternative (`Optional[int]` style) re-raises the
`int` alternative's own message; two alternatives raise the combined
"must be one of ..., or None" message. -/
theorem C8_nullable_error_preservation_witness :
    _check_nullability 5 (.str "x") true [intFieldHint] [] false false true =
      .error (.valueError
        ("Value " ++ apos ++ "x" ++ apos ++ " is not of type " ++ strHint .tInt))
    ∧ _check_nullability 5 (.str "x") true [intFieldHint, boolFieldHint] [] false false true =
      .error (.valueError
        (mustBeOneOf (.str "x") [intFieldHint, boolFieldHint] ++ ", or None")) := by
  have hmInt : Hint.validate 4 intFieldHint (.str "x") [] false false true =
      .error (.valueError
        ("Value " ++ apos ++ "x" ++ apos ++ " is not of type " ++ strHint .tInt)) := by
    rw [Hint.validate]
    simp [intFieldHint, Hint.typed, Hint.model, Hint.literal, Hint.hint, Hint.coerce_type,
      PyType.isBareList, is_optional, unwrapSingle, _check_types, isinstance, strVal, ite_self]
  have hmBool : Hint.validate 4 boolFieldHint (.str "x") [] false false true =
      .error (.valueError
        ("Value " ++ apos ++ "x" ++ apos ++ " is not of type " ++ strHint .tBool)) := by
    rw [Hint.validate]
    simp [boolFieldHint, Hint.typed, Hint.model, Hint.literal, Hint.hint, Hint.coerce_type,
      PyType.isBareList, is_optional, unwrapSingle, _check_types, isinstance, strVal, ite_self]
  constructor
  · exact C8_nullable_error_preservation.1 4 intFieldHint (.str "x") [] false false true _
      rfl (.inl rfl) hmInt
  · exact C8_nullable_error_preservation.2 4 [intFieldHint, boolFieldHint] (.str "x") []
      false false true rfl (.inl rfl) (by simp)
      (by
        intro g hg
        simp only [List.mem_cons, List.mem_singleton] at hg
        rcases hg with rfl | rfl | hg
        · exact ⟨_, hmInt⟩
        · exact ⟨_, hmBool⟩
        · cases hg)

theorem findMissingParam_isSome (data : List (String × Val)) (sig : List Param) (p : Param)
    (hp : p ∈ sig) (hd : p.default = Option.none) (hl : data.lookup p.name = Option.none) :
    (findMissingParam data sig).isSome = true := by
  induction sig with
  | nil => cases hp
  | cons q rest ih =>
    rw [findMissingParam]
    rcases List.mem_cons.mp hp with rfl | hmem
    · rw [hl, hd]
      rfl
    · cases hq : data.lookup q.name <;> cases hqd : q.default <;>
        first | rfl | exact ih hmem

theorem findUnexpected_isSome (names : List String) (data : List (String × Val))
    (k : String) (x : Val) (hk : (k, x) ∈ data) (hn : names.contains k = false) :
    (findUnexpected names data).isSome = true := by
  induction data with
  | nil => cases hk
  | cons kv rest ih =>
    obtain ⟨k', v'⟩ := kv
    rw [findUnexpected]
    rcases List.mem_cons.mp hk with heq | hmem
    · cases heq
      rw [if_neg (by simpa using hn)]
      rfl
    · by_cases hc : names.contains k' = true
      · rw [if_pos hc]
        exact ih hmem
      · rw [if_neg hc]
        rfl

theorem bindSig_ok_parts (sig : List Param) (d : List (String × Val))
    (params : List (String × Val)) (h : bindSig sig d = .ok params) :
    findMissingParam d sig = Option.none
    ∧ findUnexpected (sig.map Param.name) d = Option.none := by
  rw [bindSig] at h
  cases h1 : findMissingParam d sig with
  | some n => rw [h1] at h; cases h
  | none =>
    rw [h1] at h
    cases h2 : findUnexpected (sig.map Param.name) d with
    | some k => rw [h2] at h; cases h
    | none => exact ⟨rfl, rfl⟩

/-- C9: strict field-set binding.  With the model's schema entry present, an
input dict containing a key that is no constructor parameter, or lacking a
parameter that has no default, makes `check_data` fail with a `TypeError` from
signature binding — no model instance is constructed and extra fields are never
silently ignored. -/
theorem C9_strict_binding :
    (∀ (fuel : Nat) (model : String) (schema : Schema) (entry : SchemaEntry)
      (d : List (String × Val)) (k : String) (x : Val) (am ac attrs : Bool),
      schema.lookup model = some entry →
      (k, x) ∈ d → ((entry.sig.map Param.name).contains k) = false →
      isTypeError (check_data (fuel + 1) model (.dict d) schema am ac attrs) = true)
  ∧ (∀ (fuel : Nat) (model : String) (schema : Schema) (entry : SchemaEntry)
      (d : List (String × Val)) (p : Param) (am ac attrs : Bool),
      schema.lookup model = some entry →
      p ∈ entry.sig → p.default = Option.none → d.lookup p.name = Option.none →
      isTypeError (check_data (fuel + 1) model (.dict d) schema am ac attrs) = true) := by
  constructor
  · intro fuel model schema entry d k x am ac attrs hentry hk hn
    rw [check_data]
    simp only [hentry]
    cases hbs : bindSig entry.sig d with
    | error e =>
      obtain ⟨m, rfl⟩ := bindSig_errors_typeError _ _ _ hbs
      rfl
    | ok params =>
      have := (bindSig_ok_parts _ _ _ hbs).2
      have hsome := findUnexpected_isSome (entry.sig.map Param.name) d k x hk hn
      rw [this] at hsome
      cases hsome
  · intro fuel model schema entry d p am ac attrs hentry hp hd hl
    rw [check_data]
    simp only [hentry]
    cases hbs : bindSig entry.sig d with
    | error e =>
      obtain ⟨m, rfl⟩ := bindSig_errors_typeError _ _ _ hbs
      rfl
    | ok params =>
      have := (bindSig_ok_parts _ _ _ hbs).1
      have hsome := findMissingParam_isSome d entry.sig p hp hd hl
      rw [this] at hsome
      cases hsome

/-- Witness for C9: `Person(name: str)` — an unexpected key `zz` and a missing
required `name` each abort with a `TypeError` before construction. -/
theorem C9_strict_binding_witness :
    isTypeError (check_data 1 "Person"
      (.dict [("name", .str "a"), ("zz", .int 1)]) personSchema false false true) = true
    ∧ isTypeError (check_data 1 "Person" (.dict []) personSchema false false true) = true := by
  constructor
  · exact C9_strict_binding.1 0 "Person" personSchema
      { sig := [{ name := "name", default := Option.none }], hints := [("name", strFieldHint)] }
      [("name", .str "a"), ("zz", .int 1)] "zz" (.int 1) false false true rfl
      (by simp) rfl
  · exact C9_strict_binding.2 0 "Person" personSchema
      { sig := [{ name := "name", default := Option.none }], hints := [("name", strFieldHint)] }
      [] { name := "name", default := Option.none } false false true rfl
      (by simp) rfl rfl

/-- C10 (amended): the consumer loop of `Logger.__call__` dequeues with a
non-blocking poll (an empty queue just re-iterates) and handles queued records
in FIFO order while running; a stop signal clears `run`, and the very next
iteration exits the loop immediately — regardless of, and without handling, the
records still enqueued, which are discarded. -/
theorem C10_consumer_shutdown :
    (∀ s : LoggerState, s.run = false → s.exited = false → s.crashed = false →
      loggerStep s .iterate = { s with exited := true })
  ∧ (∀ s : LoggerState, s.run = true → s.exited = false → s.crashed = false →
      s.queue = [] → loggerStep s .iterate = s)
  ∧ (∀ (s : LoggerState) (r : LogRecord) (rest : List LogRecord),
      s.run = true → s.exited = false → s.crashed = false → s.queue = r :: rest →
      knownLoggers.contains r.name = true →
      loggerStep s .iterate = { s with queue := rest, handled := s.handled ++ [r] })
  ∧ (∀ s : LoggerState, (loggerStep s .signal).run = false) := by
  refine ⟨?_, ?_, ?_, ?_⟩
  · intro s h1 h2 h3
    simp [loggerStep, h1, h2, h3]
  · intro s h1 h2 h3 h4
    simp [loggerStep, h1, h2, h3, h4]
  · intro s r rest h1 h2 h3 h4 h5
    have h5m : r.name ∈ knownLoggers := by simpa using h5
    simp [loggerStep, h1, h2, h3, h4, h5m]
  · intro s
    cases hr : s.run <;> simp [loggerStep, hr]

/-- Witness for C10's amended statement: with one root-logger record enqueued,
a cleared `run` flag makes the next iteration exit leaving the record
unhandled; while running, the same record would have been handled. -/
theorem C10_consumer_shutdown_witness :
    loggerStep ⟨false, [rootRecord], [], false, false⟩ .iterate =
      ⟨false, [rootRecord], [], true, false⟩
    ∧ loggerStep ⟨true, [rootRecord], [], false, false⟩ .iterate =
      ⟨true, [], [rootRecord], false, false⟩ := by
  constructor
  · exact C10_consumer_shutdown.1 ⟨false, [rootRecord], [], false, false⟩ rfl rfl rfl
  · exact C10_consumer_shutdown.2.2.1 ⟨true, [rootRecord], [], false, false⟩ rootRecord []
      rfl rfl rfl rfl rfl

/-- C10 counterexample: a record enqueued before the stop signal is discarded —
after `enqueue, signal, iterate` the loop has exited with the record still in
the queue and nothing handled, contradicting "discarding nothing already
enqueued at signal time — every record enqueued before the signal is handled by
its logger before the loop exits". -/
theorem C10_counterexample :
    loggerRun [.enqueue rootRecord, .signal, .iterate] =
      ⟨false, [rootRecord], [], true, false⟩ := by
  rfl
